import Mathlib

/-!
Verification of the deterministic address computation and deploy-verify
protocol of the `deploykit` multi-chain deployment CLI.

Modelling conventions, shared by every definition below:

* Byte strings (ethers hex strings / `Uint8Array`s) are `List Nat`, one
  entry per byte.  `ethers.utils.concat` / `hexConcat` become `List.append`;
  `ethers.utils.hexDataSlice (h, 12)` becomes `List.drop 12`;
  slicing a `0x`-prefixed 64-hex-char digest string with `.slice(26)`
  keeps 40 hex chars, i.e. drops the first 12 bytes, so it also becomes
  `List.drop 12`.
* `ethers.utils.keccak256` is an external cryptographic primitive; it is
  modelled as an explicit function parameter `keccak : List Nat → List Nat`
  whose only assumed property, where needed, is that its output is 32
  bytes long.
* `ethers.utils.getAddress` re-renders a 20-byte address in EIP-55
  checksum case; it changes only the letter case of the hex rendering,
  never the underlying bytes, so at the byte level it is the identity and
  is dropped from the byte-level definitions.  Where the program compares
  rendered address *strings* (the receipt-verification step), addresses
  are kept as `String`s and the source's `.toLowerCase()` defence is
  modelled faithfully.
-/

/-- UTF-8 encoding of a single character (the scalar-value encoding used by
`ethers.utils.toUtf8Bytes`). -/
def utf8EncodeChar (c : Char) : List Nat :=
  let v := c.toNat
  if v < 0x80 then [v]
  else if v < 0x800 then
    [0xC0 ||| (v >>> 6), 0x80 ||| (v &&& 0x3F)]
  else if v < 0x10000 then
    [0xE0 ||| (v >>> 12), 0x80 ||| ((v >>> 6) &&& 0x3F), 0x80 ||| (v &&& 0x3F)]
  else
    [0xF0 ||| (v >>> 18), 0x80 ||| ((v >>> 12) &&& 0x3F),
     0x80 ||| ((v >>> 6) &&& 0x3F), 0x80 ||| (v &&& 0x3F)]

/-- `ethers.utils.toUtf8Bytes`: UTF-8 encoding of a string, as a byte list. -/
def toUtf8Bytes (s : String) : List Nat :=
  s.data.flatMap utf8EncodeChar

/-- `formatSalt` (src/utils, `part_007` lines 8-10 and `cli.js` lines 74-76):
`ethers.utils.hexZeroPad(ethers.utils.toUtf8Bytes(salt), 32)`.
`hexZeroPad(value, 32)` left-pads the hex rendering of `value` with zero
nibbles up to 32 bytes, and throws `value out of range` when `value` is
already wider than 32 bytes; the throw is modelled as `none`. -/
def formatSalt (salt : String) : Option (List Nat) :=
  let bytes := toUtf8Bytes salt
  if bytes.length ≤ 32 then
    some (List.replicate (32 - bytes.length) 0 ++ bytes)
  else
    none

/-- `computeCreate2Address` (src/utils, `part_007` lines 19-23 and `cli.js`
lines 85-89), at the byte level:
`getAddress(hexDataSlice(keccak256(concat(['0xff', factory, salt, keccak256(code)])), 12))`. -/
def computeCreate2Address (keccak : List Nat → List Nat)
    (factoryAddress salt deployBytecode : List Nat) : List Nat :=
  let bytecodeHash := keccak deployBytecode
  let hash := keccak ([0xff] ++ factoryAddress ++ salt ++ bytecodeHash)
  hash.drop 12

/-- The fixed Solady proxy-init-code hash constant from `cli.js` line 99:
`0x21c35dbe1b344a2488cf3321d6ce542f8e9f305544ff09e4993a62319a497c1f`. -/
def proxyBytecodeHash : List Nat :=
  [0x21, 0xc3, 0x5d, 0xbe, 0x1b, 0x34, 0x4a, 0x24,
   0x88, 0xcf, 0x33, 0x21, 0xd6, 0xce, 0x54, 0x2f,
   0x8e, 0x9f, 0x30, 0x55, 0x44, 0xff, 0x09, 0xe4,
   0x99, 0x3a, 0x62, 0x31, 0x9a, 0x49, 0x7c, 0x1f]

/-- `computeCreate3Address` (`cli.js` lines 97-132), at the byte level.
The proxy address is the digest of `0xff ++ factory ++ salt ++ proxyBytecodeHash`
with its first 12 bytes dropped (the source slices the hex string at
character 26), and the final address drops the first 12 bytes of the digest
of `0xd694 ++ proxyAddress ++ 0x01`. -/
def computeCreate3Address (keccak : List Nat → List Nat)
    (factoryAddress salt : List Nat) : List Nat :=
  let proxyAddressBytes := keccak ([0xff] ++ factoryAddress ++ salt ++ proxyBytecodeHash)
  let proxyAddress := proxyAddressBytes.drop 12
  let rlpEncodedData := [0xd6, 0x94] ++ proxyAddress ++ [0x01]
  (keccak rlpEncodedData).drop 12

/-- The low 20 bytes of a byte string — the spec's `low20` (§4.2 step 3). -/
def low20 (bs : List Nat) : List Nat :=
  bs.drop (bs.length - 20)

/-- The spec's `computeDirect` (§4.2), written from the spec's words:
`low20(keccak256(0xff ++ factoryAddress ++ formattedSalt ++ keccak256(initCode)))`. -/
def computeDirect (keccak : List Nat → List Nat)
    (factoryAddress formattedSalt initCode : List Nat) : List Nat :=
  low20 (keccak ([0xff] ++ factoryAddress ++ formattedSalt ++ keccak initCode))

/-- The factory address `0x5FbDB2315678AfecB367f032d93F642f64180aa3` used in
the spec's §8 scenario, as 20 bytes. -/
def factoryAddressBytes : List Nat :=
  [0x5F, 0xbD, 0xB2, 0x31, 0x56, 0x78, 0xAf, 0xec, 0xB3, 0x67,
   0xf0, 0x32, 0xd9, 0x3F, 0x64, 0x2f, 0x64, 0x18, 0x0a, 0xa3]

/-- The 32-byte formatted form of the salt string `"mysalt"`:
26 zero bytes followed by the UTF-8 bytes of `"mysalt"`. -/
def mysaltFormatted : List Nat :=
  List.replicate 26 0 ++ [0x6d, 0x79, 0x73, 0x61, 0x6c, 0x74]

/-- A placeholder 32-byte-output hash used to instantiate theorems that are
parametric in the external `keccak256` primitive. -/
def kdummy : List Nat → List Nat :=
  fun _ => List.replicate 32 7

/-!
The deployment orchestrator (`part_005`, the `deploy` and `deploy-hs`
commands).  External collaborators — the environment, the ABI encoder, the
compiled artifacts, the RPC provider's gas estimate, and the transaction
receipt — are modelled as fields of a `World` record, and each command's
action becomes a pure function from a `World` and a validated configuration
to a `RunResult` describing the observable outcome of the run.
-/

/-- JavaScript's `String.prototype.toLowerCase`, restricted to the ASCII
range, which is all that hex address strings use. -/
def lowerChar (c : Char) : Char :=
  if 65 ≤ c.toNat ∧ c.toNat ≤ 90 then Char.ofNat (c.toNat + 32) else c

/-- `s.toLowerCase()` on an address string. -/
def toLowerCase (s : String) : String :=
  String.mk (s.data.map lowerChar)

/-- One receipt log entry, as seen through `factoryInterface.parseLog`:
either it parses to one of the two factory events, or parsing throws
(`unparsed`). -/
inductive Log where
  | contractDeployed (contractAddress : String) (chainId : Nat)
  | crossChainMessageSent (chainId : Nat) (targetFactory : String)
  | unparsed
deriving DecidableEq

/-- The receipt scan of `part_005` lines 84-99: find the first log that
parses to a `ContractDeployed` event and read its arguments. -/
def parseContractDeployed : Log → Option (String × Nat)
  | Log.contractDeployed a c => some (a, c)
  | _ => none

/-- The external collaborators of one CLI run. -/
structure World where
  /-- `process.env.PRIVATE_KEY`. -/
  privateKey : Option String
  /-- `ethers.utils.keccak256`, at the byte level. -/
  keccak : List Nat → List Nat
  /-- Rendering of a computed 20-byte address as a hex string
  (`ethers.utils.getAddress` checksum rendering). -/
  renderAddress : List Nat → String
  /-- `artifact.bytecode.object` for the `deploy` command's contract. -/
  artifactBytecode : List Nat
  /-- `iface.encodeDeploy` for the `deploy` command's ABI. -/
  encodeDeploy : List String → List Nat
  /-- `hubArtifact.bytecode.object`. -/
  hubArtifactBytecode : List Nat
  /-- `spokeArtifact.bytecode.object`. -/
  spokeArtifactBytecode : List Nat
  /-- `hubIface.encodeDeploy`. -/
  hubEncodeDeploy : List String → List Nat
  /-- `spokeIface.encodeDeploy`. -/
  spokeEncodeDeploy : List String → List Nat
  /-- Outcome of the `provider.estimateGas` RPC call: `some g` on success,
  `none` when the call rejects. -/
  estimateGasResult : Option Nat
  /-- `receipt.logs` of the submitted transaction. -/
  receiptLogs : List Log

/-- A validated `deploy` configuration (the spec's `DeploymentRequest`),
as produced by `loadConfig` in `config.ts`.  The factory address is kept as
its 20 bytes. -/
structure Config where
  chains : List Nat
  factoryContract : List Nat
  contractName : String
  constructorArgs : List String
  salt : String
  rpcUrl : String

/-- A validated `deploy-hs` configuration as produced by `loadHubSpokeConfig`
in `config.ts` (lines 13-22): the target-chain list lives in the `chains`
field.  The `spokeChains` field models the raw JSON object's `spokeChains`
key, which survives the spread in `loadHubSpokeConfig` even though the
`HubSpokeConfig` interface declares no such field and the validator never
checks or fills it: with the documented config shape it is absent
(`none`). -/
structure HubSpokeConfig where
  chains : List Nat
  factoryContract : List Nat
  hubContract : String
  spokeContract : String
  hubConstructorArgs : List String
  spokeConstructorArgs : List String
  salt : String
  rpcUrl : String
  spokeChains : Option (List Nat)

/-- The transaction handed to the factory contract: target chain ids, the
ABI-encoded payload byte strings, and the `gasLimit` override. -/
structure SubmittedTx where
  chainIds : List Nat
  payload : List (List Nat)
  gasLimit : Nat
deriving DecidableEq

/-- Observable outcome of one CLI run. -/
structure RunResult where
  /-- Process exit status: `0` on normal completion, `1` through the
  `catch` + `process.exit(1)` handler. -/
  exitCode : Nat
  /-- The message printed by the `catch` handler, when the run failed. -/
  errMsg : Option String
  /-- Number of RPC interactions attempted (gas estimate; submission with
  its receipt wait). -/
  rpcCalls : Nat
  /-- The deployment transaction, when one was submitted. -/
  submitted : Option SubmittedTx
  /-- Whether the gas-estimation-failure warning was printed. -/
  gasWarning : Bool
  /-- Whether the address-mismatch warning was printed. -/
  mismatchWarning : Bool
  /-- Whether the address-verification step was reached. -/
  reachedVerification : Bool
  deployedAddress : Option String
  computedAddress : Option String
deriving DecidableEq

/-- `part_005` line 29 / `cli.ts` line 32: the message thrown when
`PRIVATE_KEY` is unset. -/
def missingKeyMsg : String :=
  "PRIVATE_KEY environment variable is not set. Set it with: export PRIVATE_KEY=0xYourPrivateKey"

/-- `part_005` line 95 / `cli.ts` line 69: the message thrown when the
receipt has no `ContractDeployed` event. -/
def eventNotFoundMsg : String :=
  "ContractDeployed event not found in receipt"

/-- `part_005` line 70: the fallback gas limit of the `deploy` command. -/
def fallbackGasDeploy : Nat := 5000000

/-- `part_005` line 180: the fallback gas limit of the `deploy-hs` command
(the adjacent log message says 6,000,000, but the constant assigned and
submitted is 8,000,000). -/
def fallbackGasDeployHS : Nat := 8000000

/-- `part_005` lines 41-47: init code = artifact bytecode concatenated with
the ABI-encoded constructor arguments (an empty argument list contributes
the empty byte string `0x`). -/
def deployInitCode (w : World) (cfg : Config) : List Nat :=
  w.artifactBytecode
    ++ (if cfg.constructorArgs.length > 0 then w.encodeDeploy cfg.constructorArgs else [])

/-- `part_005` lines 139-145: the hub contract's init code. -/
def hubInitCode (w : World) (cfg : HubSpokeConfig) : List Nat :=
  w.hubArtifactBytecode
    ++ (if cfg.hubConstructorArgs.length > 0 then w.hubEncodeDeploy cfg.hubConstructorArgs else [])

/-- `part_005` lines 148-154: the spoke contract's init code. -/
def spokeInitCode (w : World) (cfg : HubSpokeConfig) : List Nat :=
  w.spokeArtifactBytecode
    ++ (if cfg.spokeConstructorArgs.length > 0
        then w.spokeEncodeDeploy cfg.spokeConstructorArgs else [])

/-- The `deploy` command's action (`part_005` lines 19-114), as a pure
function of the world and the validated configuration.  Steps, in source
order: `PRIVATE_KEY` check; artifact/init-code preparation; salt
formatting (`hexZeroPad` throw modelled as the `none` branch); gas
estimation with fixed fallback on RPC failure; submission and receipt wait;
receipt scan for `ContractDeployed`; CREATE2 recomputation and
case-insensitive comparison. -/
def runDeploy (w : World) (cfg : Config) : RunResult :=
  match w.privateKey with
  | none =>
    { exitCode := 1, errMsg := some missingKeyMsg, rpcCalls := 0, submitted := none,
      gasWarning := false, mismatchWarning := false, reachedVerification := false,
      deployedAddress := none, computedAddress := none }
  | some _ =>
    let deployBytecode := deployInitCode w cfg
    match formatSalt cfg.salt with
    | none =>
      { exitCode := 1, errMsg := some "value out of range", rpcCalls := 0, submitted := none,
        gasWarning := false, mismatchWarning := false, reachedVerification := false,
        deployedAddress := none, computedAddress := none }
    | some formattedSalt =>
      let gasInfo : Nat × Bool :=
        match w.estimateGasResult with
        | some g => (g, false)
        | none => (fallbackGasDeploy, true)
      let tx : SubmittedTx :=
        { chainIds := cfg.chains, payload := [deployBytecode, formattedSalt],
          gasLimit := gasInfo.1 }
      match w.receiptLogs.findSome? parseContractDeployed with
      | none =>
        { exitCode := 1, errMsg := some eventNotFoundMsg, rpcCalls := 2, submitted := some tx,
          gasWarning := gasInfo.2, mismatchWarning := false, reachedVerification := false,
          deployedAddress := none, computedAddress := none }
      | some (addr, _) =>
        let deployedAddress := addr
        let computedAddress :=
          w.renderAddress
            (computeCreate2Address w.keccak cfg.factoryContract formattedSalt deployBytecode)
        { exitCode := 0, errMsg := none, rpcCalls := 2, submitted := some tx,
          gasWarning := gasInfo.2,
          mismatchWarning := toLowerCase deployedAddress != toLowerCase computedAddress,
          reachedVerification := true,
          deployedAddress := some deployedAddress, computedAddress := some computedAddress }

/-- The `deploy-hs` command's action (`part_005` lines 116-233).  Note the
chain-id list handed to `deployHubAndSpokes` is `config.spokeChains`, not the
validated `config.chains`; when the raw config has no `spokeChains` key the
value is `undefined`, the ABI encoder throws — inside the `try` during gas
estimation (caught: warning + fallback), and again at the submission call
itself (uncaught: the outer handler exits 1 with no transaction
submitted). -/
def runDeployHS (w : World) (cfg : HubSpokeConfig) : RunResult :=
  match w.privateKey with
  | none =>
    { exitCode := 1, errMsg := some missingKeyMsg, rpcCalls := 0, submitted := none,
      gasWarning := false, mismatchWarning := false, reachedVerification := false,
      deployedAddress := none, computedAddress := none }
  | some _ =>
    let hubDeployBytecode := hubInitCode w cfg
    let spokeDeployBytecode := spokeInitCode w cfg
    match formatSalt cfg.salt with
    | none =>
      { exitCode := 1, errMsg := some "value out of range", rpcCalls := 0, submitted := none,
        gasWarning := false, mismatchWarning := false, reachedVerification := false,
        deployedAddress := none, computedAddress := none }
    | some formattedSalt =>
      match cfg.spokeChains with
      | none =>
        { exitCode := 1, errMsg := some "expected array value", rpcCalls := 0,
          submitted := none, gasWarning := true, mismatchWarning := false,
          reachedVerification := false, deployedAddress := none, computedAddress := none }
      | some spokeChainIds =>
        let gasInfo : Nat × Bool :=
          match w.estimateGasResult with
          | some g => (g, false)
          | none => (fallbackGasDeployHS, true)
        let tx : SubmittedTx :=
          { chainIds := spokeChainIds,
            payload := [hubDeployBytecode, spokeDeployBytecode, formattedSalt],
            gasLimit := gasInfo.1 }
        match w.receiptLogs.findSome? parseContractDeployed with
        | none =>
          { exitCode := 1, errMsg := some eventNotFoundMsg, rpcCalls := 2, submitted := some tx,
            gasWarning := gasInfo.2, mismatchWarning := false, reachedVerification := false,
            deployedAddress := none, computedAddress := none }
        | some (addr, _) =>
          let hubAddress := addr
          let computedAddress :=
            w.renderAddress (computeCreate3Address w.keccak cfg.factoryContract formattedSalt)
          { exitCode := 0, errMsg := none, rpcCalls := 2, submitted := some tx,
            gasWarning := gasInfo.2,
            mismatchWarning := toLowerCase hubAddress != toLowerCase computedAddress,
            reachedVerification := true,
            deployedAddress := some hubAddress, computedAddress := some computedAddress }

/-- The 32-byte formatted form of the salt string `"deployHS"`. -/
def deployHSFormatted : List Nat :=
  List.replicate 24 0 ++ [0x64, 0x65, 0x70, 0x6c, 0x6f, 0x79, 0x48, 0x53]

/-- A concrete world for instantiating run-level theorems. -/
def w0 : World where
  privateKey := some "0xkey"
  keccak := kdummy
  renderAddress := fun _ => "0xabc"
  artifactBytecode := [0x60, 0x80]
  encodeDeploy := fun _ => [0x11]
  hubArtifactBytecode := [0x60]
  spokeArtifactBytecode := [0x61]
  hubEncodeDeploy := fun _ => [0x22]
  spokeEncodeDeploy := fun _ => [0x33]
  estimateGasResult := some 123456
  receiptLogs := [Log.contractDeployed "0xABC" 901]

/-- A concrete validated `deploy` configuration. -/
def cfg0 : Config where
  chains := [901, 902]
  factoryContract := factoryAddressBytes
  contractName := "TestToken"
  constructorArgs := []
  salt := "mysalt"
  rpcUrl := "https://interop-alpha-0.optimism.io"

/-- A concrete validated `deploy-hs` configuration whose raw JSON happened to
carry a `spokeChains` key. -/
def hcfg0 : HubSpokeConfig where
  chains := [420120000, 420120001]
  factoryContract := factoryAddressBytes
  hubContract := "HubContract"
  spokeContract := "SpokeContract"
  hubConstructorArgs := []
  spokeConstructorArgs := []
  salt := "deployHS"
  rpcUrl := "https://interop-alpha-0.optimism.io"
  spokeChains := some [420120000, 420120001]

/-- The documented `deploy-hs` configuration shape (README and
`loadHubSpokeConfig`): the target chains live in `chains`, and there is no
`spokeChains` key in the JSON. -/
def hcfgDocumented : HubSpokeConfig :=
  { hcfg0 with spokeChains := none }

/-- A concrete world whose gas-estimation RPC call fails. -/
def wGasFail : World :=
  { w0 with estimateGasResult := none }

/-- A concrete world whose receipt has logs, none of which parse to
`ContractDeployed`. -/
def wNoEvent : World :=
  { w0 with receiptLogs := [Log.unparsed, Log.crossChainMessageSent 901 "0xF"] }

/-- A concrete world with `PRIVATE_KEY` unset. -/
def wNoKey : World :=
  { w0 with privateKey := none }

/-- A world identical to `w0` except for the hub and spoke artifacts and
argument encoders. -/
def wOtherBytecode : World :=
  { w0 with
    hubArtifactBytecode := [0xAA, 0xBB]
    spokeArtifactBytecode := [0xCC]
    hubEncodeDeploy := fun _ => [0x77]
    spokeEncodeDeploy := fun _ => [0x88] }

example : formatSalt "mysalt" = some mysaltFormatted := by decide
example : toUtf8Bytes "ab" = [0x61, 0x62] := by decide

theorem kdummy_len : ∀ bs, (kdummy bs).length = 32 := by
  intro bs
  simp [kdummy]

/-- Claim C1: for every factory address `F`, formatted salt `S` and init code
`B`, `computeCreate2Address F S B` equals the low 20 bytes of
`keccak256(0xff ++ F ++ S ++ keccak256 B)` (the spec's `computeDirect`);
in particular with the scenario factory `0x5FbDB2315678AfecB367f032d93F642f64180aa3`
and salt `"mysalt"` (whose formatted form is `mysaltFormatted`) it equals
`low20(keccak256(0xff ++ factory ++ formatSalt "mysalt" ++ keccak256 B))`
for arbitrary `B`. -/
theorem create2_matches_spec (keccak : List Nat → List Nat)
    (hlen : ∀ bs, (keccak bs).length = 32) :
    (∀ F S B, computeCreate2Address keccak F S B = computeDirect keccak F S B) ∧
    formatSalt "mysalt" = some mysaltFormatted ∧
    (∀ B, computeCreate2Address keccak factoryAddressBytes mysaltFormatted B
        = low20 (keccak ([0xff] ++ factoryAddressBytes ++ mysaltFormatted ++ keccak B))) := by
  refine ⟨?_, by decide, ?_⟩
  · intro F S B
    simp [computeCreate2Address, computeDirect, low20, hlen]
  · intro B
    simp [computeCreate2Address, low20, hlen]

/-- Witness for C1 at a concrete hash function, factory, salt and bytecode. -/
theorem create2_matches_spec_witness :
    computeCreate2Address kdummy factoryAddressBytes mysaltFormatted [0xde, 0xad]
      = low20 (kdummy ([0xff] ++ factoryAddressBytes ++ mysaltFormatted ++ kdummy [0xde, 0xad])) :=
  (create2_matches_spec kdummy kdummy_len).2.2 [0xde, 0xad]

/-- Claim C2: the proxy-scheme computation first derives
`proxyAddress = low20(keccak256(0xff ++ F ++ S ++ H))` with `H` the fixed
proxy-init-code hash constant, then returns the low 20 bytes of the digest of
the 23-byte sequence `0xd6 0x94 ++ proxyAddress ++ 0x01`. -/
theorem create3_matches_spec (keccak : List Nat → List Nat)
    (hlen : ∀ bs, (keccak bs).length = 32) (F S : List Nat) :
    computeCreate3Address keccak F S
      = low20 (keccak ([0xd6, 0x94]
          ++ low20 (keccak ([0xff] ++ F ++ S ++ proxyBytecodeHash)) ++ [0x01])) ∧
    ([0xd6, 0x94] ++ low20 (keccak ([0xff] ++ F ++ S ++ proxyBytecodeHash)) ++ [0x01]).length
      = 23 := by
  constructor
  · simp [computeCreate3Address, low20, hlen]
  · simp [low20, hlen]

/-- Witness for C2 at a concrete hash function, factory and salt. -/
theorem create3_matches_spec_witness :
    computeCreate3Address kdummy factoryAddressBytes mysaltFormatted
      = low20 (kdummy ([0xd6, 0x94]
          ++ low20 (kdummy ([0xff] ++ factoryAddressBytes ++ mysaltFormatted ++ proxyBytecodeHash))
          ++ [0x01])) ∧
    ([0xd6, 0x94]
      ++ low20 (kdummy ([0xff] ++ factoryAddressBytes ++ mysaltFormatted ++ proxyBytecodeHash))
      ++ [0x01]).length = 23 :=
  create3_matches_spec kdummy kdummy_len factoryAddressBytes mysaltFormatted

/-- Claim C3 as stated is false: on a salt whose UTF-8 encoding is 33 bytes,
`formatSalt` does not return a 32-byte value — the underlying `hexZeroPad`
throws (modelled as `none`). -/
theorem formatSalt_33_byte_salt_fails :
    formatSalt "aaaaaaaaaaaaaaaaaaaaaaaaaaaaaaaaa" = none := by
  decide

/-- Claim C3 (amended): whenever `formatSalt` succeeds, its result is exactly
32 bytes: the UTF-8 encoding of the salt left-padded with zero bytes. -/
theorem formatSalt_returns_32_bytes (s : String) (out : List Nat)
    (h : formatSalt s = some out) :
    out.length = 32 ∧
    out = List.replicate (32 - (toUtf8Bytes s).length) 0 ++ toUtf8Bytes s := by
  unfold formatSalt at h
  by_cases hle : (toUtf8Bytes s).length ≤ 32
  · simp only [hle, if_true, Option.some.injEq] at h
    subst h
    refine ⟨?_, rfl⟩
    simp [List.length_replicate]
    omega
  · simp [hle] at h

/-- Witness for the amended C3 at the concrete salt `"mysalt"`. -/
theorem formatSalt_returns_32_bytes_witness :
    mysaltFormatted.length = 32 ∧
    mysaltFormatted
      = List.replicate (32 - (toUtf8Bytes "mysalt").length) 0 ++ toUtf8Bytes "mysalt" :=
  formatSalt_returns_32_bytes "mysalt" mysaltFormatted (by decide)

/-- Claim C10: `formatSalt` succeeds exactly when the UTF-8 encoding of the
salt is at most 32 bytes; beyond that the underlying `hexZeroPad` rejects the
value (modelled as `none`) rather than silently truncating. -/
theorem formatSalt_rejects_oversize (s : String) :
    (formatSalt s).isSome = true ↔ (toUtf8Bytes s).length ≤ 32 := by
  unfold formatSalt
  by_cases hle : (toUtf8Bytes s).length ≤ 32 <;> simp [hle]

example : toLowerCase "0xAbC" = "0xabc" := by decide

example : formatSalt "deployHS" = some deployHSFormatted := by decide

/-- Claim C4 fails on the code: with the documented and validated
configuration (spoke chains in the `chains` field, no raw `spokeChains`
key), the `deploy-hs` action reads the nonexistent `config.spokeChains`,
the ABI encoder throws on the `undefined` chain-id array, and the run exits
1 without submitting any transaction — the configured spoke-chain list
`[420120000, 420120001]` is never passed on-chain. -/
theorem hs_spoke_chains_field_bug :
    hcfgDocumented.chains = [420120000, 420120001] ∧
    (runDeployHS w0 hcfgDocumented).exitCode = 1 ∧
    (runDeployHS w0 hcfgDocumented).submitted = none := by
  refine ⟨rfl, ?_, ?_⟩ <;> rfl

/-- Claim C5: when the gas-estimation RPC call fails, each command logs a
warning, substitutes its fixed fallback gas limit, and still submits the
deployment transaction with that fallback as its gas field (5,000,000 for
`deploy`, 8,000,000 for `deploy-hs`). -/
theorem gas_estimation_fallback (w : World) (cfg : Config) (hcfg : HubSpokeConfig)
    (k : String) (fs fs2 scs : List Nat)
    (hk : w.privateKey = some k)
    (hg : w.estimateGasResult = none)
    (hs : formatSalt cfg.salt = some fs)
    (hs2 : formatSalt hcfg.salt = some fs2)
    (hsc : hcfg.spokeChains = some scs) :
    (runDeploy w cfg).gasWarning = true ∧
    (runDeploy w cfg).submitted.map SubmittedTx.gasLimit = some fallbackGasDeploy ∧
    (runDeployHS w hcfg).gasWarning = true ∧
    (runDeployHS w hcfg).submitted.map SubmittedTx.gasLimit = some fallbackGasDeployHS := by
  rcases hfind : w.receiptLogs.findSome? parseContractDeployed with _ | ⟨a, cid⟩ <;>
    simp [runDeploy, runDeployHS, hk, hg, hs, hs2, hsc, hfind]

/-- Witness for C5 at a concrete world and configurations. -/
theorem gas_estimation_fallback_witness :
    (runDeploy wGasFail cfg0).gasWarning = true ∧
    (runDeploy wGasFail cfg0).submitted.map SubmittedTx.gasLimit = some fallbackGasDeploy ∧
    (runDeployHS wGasFail hcfg0).gasWarning = true ∧
    (runDeployHS wGasFail hcfg0).submitted.map SubmittedTx.gasLimit
      = some fallbackGasDeployHS :=
  gas_estimation_fallback wGasFail cfg0 hcfg0 "0xkey" mysaltFormatted deployHSFormatted
    [420120000, 420120001] rfl rfl (by decide) (by decide) rfl

/-- Claim C6: a receipt with no `ContractDeployed` event makes the `deploy`
run exit 1 with the event-not-found error, never reaching the
address-verification step. -/
theorem missing_event_aborts (w : World) (cfg : Config) (k : String) (fs : List Nat)
    (hk : w.privateKey = some k)
    (hs : formatSalt cfg.salt = some fs)
    (hev : w.receiptLogs.findSome? parseContractDeployed = none) :
    (runDeploy w cfg).exitCode = 1 ∧
    (runDeploy w cfg).errMsg = some eventNotFoundMsg ∧
    (runDeploy w cfg).reachedVerification = false := by
  cases hg : w.estimateGasResult <;> simp [runDeploy, hk, hs, hev, hg]

/-- Witness for C6 at a concrete world and configuration. -/
theorem missing_event_aborts_witness :
    (runDeploy wNoEvent cfg0).exitCode = 1 ∧
    (runDeploy wNoEvent cfg0).errMsg = some eventNotFoundMsg ∧
    (runDeploy wNoEvent cfg0).reachedVerification = false :=
  missing_event_aborts wNoEvent cfg0 "0xkey" mysaltFormatted rfl (by decide) rfl

/-- Claim C7: once the deployment event is found, the run always completes
with exit status 0; the observed/computed comparison is performed on the
`toLowerCase` images of the two address strings, so addresses equal up to
hex-letter case are treated as matched and only a genuine (case-insensitive)
difference emits the mismatch warning. -/
theorem address_check_case_insensitive (w : World) (cfg : Config)
    (k : String) (fs : List Nat) (d : String) (cid : Nat)
    (hk : w.privateKey = some k)
    (hs : formatSalt cfg.salt = some fs)
    (hev : w.receiptLogs.findSome? parseContractDeployed = some (d, cid)) :
    (runDeploy w cfg).exitCode = 0 ∧
    (runDeploy w cfg).deployedAddress = some d ∧
    (runDeploy w cfg).computedAddress
      = some (w.renderAddress
          (computeCreate2Address w.keccak cfg.factoryContract fs (deployInitCode w cfg))) ∧
    ((runDeploy w cfg).mismatchWarning = false ↔
      toLowerCase d
        = toLowerCase (w.renderAddress
            (computeCreate2Address w.keccak cfg.factoryContract fs (deployInitCode w cfg)))) := by
  cases hg : w.estimateGasResult <;> simp [runDeploy, hk, hs, hev, hg]

/-- Witness for C7: the event reports `0xABC`, the computed address renders
as `0xabc`; the run exits 0 and the comparison is on lowercased strings. -/
theorem address_check_case_insensitive_witness :
    (runDeploy w0 cfg0).exitCode = 0 ∧
    (runDeploy w0 cfg0).deployedAddress = some "0xABC" ∧
    (runDeploy w0 cfg0).computedAddress
      = some (w0.renderAddress
          (computeCreate2Address w0.keccak cfg0.factoryContract mysaltFormatted
            (deployInitCode w0 cfg0))) ∧
    ((runDeploy w0 cfg0).mismatchWarning = false ↔
      toLowerCase "0xABC"
        = toLowerCase (w0.renderAddress
            (computeCreate2Address w0.keccak cfg0.factoryContract mysaltFormatted
              (deployInitCode w0 cfg0)))) :=
  address_check_case_insensitive w0 cfg0 "0xkey" mysaltFormatted "0xABC" 901
    rfl (by decide) rfl

/-- Claim C8: with `PRIVATE_KEY` unset, both commands exit 1 with the
message naming the variable, before any RPC call and with no transaction
submitted. -/
theorem missing_private_key_aborts_early (w : World) (cfg : Config)
    (hcfg : HubSpokeConfig) (hk : w.privateKey = none) :
    (runDeploy w cfg).exitCode = 1 ∧
    (runDeploy w cfg).errMsg = some missingKeyMsg ∧
    (runDeploy w cfg).rpcCalls = 0 ∧
    (runDeploy w cfg).submitted = none ∧
    (runDeployHS w hcfg).exitCode = 1 ∧
    (runDeployHS w hcfg).errMsg = some missingKeyMsg ∧
    (runDeployHS w hcfg).rpcCalls = 0 ∧
    (runDeployHS w hcfg).submitted = none ∧
    missingKeyMsg.data.take 11 = "PRIVATE_KEY".data := by
  refine ⟨?_, ?_, ?_, ?_, ?_, ?_, ?_, ?_, by decide⟩ <;>
    simp [runDeploy, runDeployHS, hk]

/-- Witness for C8 at a concrete world and configurations. -/
theorem missing_private_key_aborts_early_witness :
    (runDeploy wNoKey cfg0).exitCode = 1 ∧
    (runDeploy wNoKey cfg0).errMsg = some missingKeyMsg ∧
    (runDeploy wNoKey cfg0).rpcCalls = 0 ∧
    (runDeploy wNoKey cfg0).submitted = none ∧
    (runDeployHS wNoKey hcfg0).exitCode = 1 ∧
    (runDeployHS wNoKey hcfg0).errMsg = some missingKeyMsg ∧
    (runDeployHS wNoKey hcfg0).rpcCalls = 0 ∧
    (runDeployHS wNoKey hcfg0).submitted = none ∧
    missingKeyMsg.data.take 11 = "PRIVATE_KEY".data :=
  missing_private_key_aborts_early wNoKey cfg0 hcfg0 rfl

/-- Claim C9: the proxy-scheme computed address of a `deploy-hs` run depends
only on the factory address and the salt (plus the shared external hash and
rendering primitives) — two runs agreeing on those agree on the computed
address no matter which hub or spoke bytecode, contract names, or
constructor arguments are deployed through them. -/
theorem create3_bytecode_independent (w1 w2 : World) (c1 c2 : HubSpokeConfig)
    (hpk : w1.privateKey = w2.privateKey)
    (hkec : w1.keccak = w2.keccak)
    (hren : w1.renderAddress = w2.renderAddress)
    (hgas : w1.estimateGasResult = w2.estimateGasResult)
    (hlogs : w1.receiptLogs = w2.receiptLogs)
    (hfac : c1.factoryContract = c2.factoryContract)
    (hsalt : c1.salt = c2.salt)
    (hsc : c1.spokeChains = c2.spokeChains) :
    (runDeployHS w1 c1).computedAddress = (runDeployHS w2 c2).computedAddress := by
  cases hpk2 : w2.privateKey <;>
    cases hsalt2 : formatSalt c2.salt <;>
      cases hsc2 : c2.spokeChains <;>
        cases hgas2 : w2.estimateGasResult <;>
          rcases hfind : w2.receiptLogs.findSome? parseContractDeployed with _ | ⟨a, cid⟩ <;>
            simp [runDeployHS, hpk, hkec, hren, hgas, hlogs, hfac, hsalt, hsc,
              hpk2, hsalt2, hsc2, hgas2, hfind]

/-- Witness for C9: two runs differing only in hub/spoke bytecode compute
the same address. -/
theorem create3_bytecode_independent_witness :
    (runDeployHS w0 hcfg0).computedAddress
      = (runDeployHS wOtherBytecode hcfg0).computedAddress :=
  create3_bytecode_independent w0 wOtherBytecode hcfg0 hcfg0
    rfl rfl rfl rfl rfl rfl rfl rfl
